import Mathlib

/-! Verification of the MusicCompanionWidget playback-synchronization core.

Shallow embedding of the repository's playback-state synchronization engine:

* `src/server/index.js` — the poll loop (`pollCurrentTrack`), its change
  detection and broadcast gating, and the new-connection greet;
* `src/server/providers/windows-media.js` — `WindowsMediaProvider.getCurrentTrack`;
* `src/unnamed/part_000` (the Spotify provider) — `SpotifyProvider.getCurrentTrack`,
  `refreshAccessToken`, `ensureToken`;
* `src/public/js/widget.js` — `MusicWidget.getCurrentProgress` and
  `MusicWidget.updateProgressDisplay`.

JavaScript `null`/`undefined` fields are embedded as `Option`; millisecond
quantities and `Date.now()` timestamps are embedded as `Int`; the percentage
written to the progress bar (real-number division in JS) is embedded as `ℚ`.
-/

namespace MusicWidget

/-- A normalized playback snapshot, the JSON shape produced by both providers
(`windows-media.js` builds it from the PowerShell output; the Spotify provider
builds it from the Web API response).  Optional JSON fields are `Option`;
`needsAuth` is the extra flag the Spotify provider sets on its
`{ playing: false, needsAuth: true }` return (absent ⇒ `false`). -/
structure Snapshot where
  playing : Bool
  title : Option String := none
  artist : Option String := none
  album : Option String := none
  albumArt : Option String := none
  duration : Option Int := none
  progress : Option Int := none
  source : Option String := none
  error : Option String := none
  needsAuth : Bool := false
deriving Repr, DecidableEq

/-- JavaScript template-literal rendering of a possibly-absent string field:
`` `${track.title}` `` prints `undefined` when the field is absent. -/
def jsFieldString : Option String → String
  | some s => s
  | none => "undefined"

/-- JavaScript `x || d` on an optional integer: `null`/`undefined` and `0`
are falsy and fall through to the default. -/
def jsOrInt (x : Option Int) (d : Int) : Int :=
  match x with
  | some v => if v = 0 then d else v
  | none => d

/-- The server's mutable comparison / greet state
(`lastTrackId`, `lastPlayingState`, `lastProgressMs`, `currentTrack` in
`src/server/index.js`, lines 127–133). -/
structure PollState where
  lastTrackId : Option String
  lastPlayingState : Option Bool
  lastProgressMs : Option Int
  currentTrack : Option Snapshot
deriving Repr, DecidableEq

/-- The state at server startup: everything `null`. -/
def initState : PollState := ⟨none, none, none, none⟩

/-- The track identifier
`` const trackId = track ? `${track.title}-${track.artist}` : null ``
(`index.js` line 168).  Note absent `title`/`artist` render as the string
`"undefined"`, and title and artist are joined by `"-"` into a single string. -/
def trackIdOf : Option Snapshot → Option String
  | none => none
  | some t => some (jsFieldString t.title ++ "-" ++ jsFieldString t.artist)

/-- One execution of the body of `pollCurrentTrack` (`index.js` lines 163–208)
on the snapshot the adapter returned.  Returns the updated server state and
the `shouldBroadcast` flag.  The adapter result is `Option Snapshot` because
the code guards `track ? … : null` (providers in this repository always
return an object, i.e. `some`). -/
def pollCurrentTrack (st : PollState) (track : Option Snapshot) :
    PollState × Bool :=
  let trackId := trackIdOf track
  let isNewTrack : Bool := trackId != st.lastTrackId
  let playStateChanged : Bool :=
    st.lastPlayingState != none &&
      st.lastPlayingState != track.map (fun t => t.playing)
  let userSeeked : Bool :=
    match track, st.lastProgressMs with
    | some t, some p =>
        if isNewTrack then false
        else
          let expectedProgress :=
            if st.lastPlayingState == some true then p + 1500 else p
          let actualProgress := jsOrInt t.progress 0
          let drift := (actualProgress - expectedProgress).natAbs
          decide (drift > 2500)
    | _, _ => false
  let shouldBroadcast : Bool :=
    isNewTrack || playStateChanged || userSeeked || st.lastTrackId == none
  (⟨trackId, track.map (fun t => t.playing),
    track.bind (fun t => t.progress), track⟩,
   shouldBroadcast)

/-- The message broadcast by a poll, when one is broadcast: `index.js`
lines 194–204 send `{ type: 'track', data: track }` (with `data: null` for a
null track) exactly when `shouldBroadcast`. -/
def pollBroadcast (st : PollState) (track : Option Snapshot) :
    Option (Option Snapshot) :=
  if (pollCurrentTrack st track).2 then some track else none

/-- Run the poll loop over a list of adapter results, collecting the
per-poll `shouldBroadcast` flags in order. -/
def pollRun (st : PollState) : List (Option Snapshot) → PollState × List Bool
  | [] => (st, [])
  | t :: rest =>
      let r := pollCurrentTrack st t
      let rr := pollRun r.1 rest
      (rr.1, r.2 :: rr.2)

/-- The greet sent to a newly connecting observer (`index.js` lines 142–145):
`if (currentTrack) ws.send({ type: 'track', data: currentTrack })`.
`some s` means a message with payload `s` is sent immediately; `none` means
nothing is sent until the next broadcast. -/
def onConnectGreet (st : PollState) : Option Snapshot :=
  st.currentTrack

/-! ## Observer renderer (`src/public/js/widget.js`) -/

/-- The observer-side fields read by the render loop
(`widget.js` constructor lines 4–14, updated by `updateTrack`):
the last received snapshot, the playing flag, and the baseline
`(syncedProgressMs, syncedAtTime)`. -/
structure WidgetState where
  currentTrack : Option Snapshot
  isPlaying : Bool
  syncedProgressMs : Int
  syncedAtTime : Int
deriving Repr, DecidableEq

/-- Embedding of `MusicWidget.getCurrentProgress` (`widget.js` lines 136–145), as a function
of the widget state and the current wall clock `now = Date.now()`:

```js
if (!this.currentTrack || this.syncedAtTime === 0) return 0;
if (this.isPlaying) {
  const elapsed = Date.now() - this.syncedAtTime;
  return Math.min(this.syncedProgressMs + elapsed, this.currentTrack.duration || 0);
} else {
  return this.syncedProgressMs;
}
``` -/
def getCurrentProgress (w : WidgetState) (now : Int) : Int :=
  match w.currentTrack with
  | none => 0
  | some t =>
      if w.syncedAtTime = 0 then 0
      else if w.isPlaying then
        min (w.syncedProgressMs + (now - w.syncedAtTime)) (jsOrInt t.duration 0)
      else w.syncedProgressMs

/-- The percentage `MusicWidget.updateProgressDisplay` (`widget.js` lines
147–156) writes to the progress bar: `none` when the early
`if (!this.currentTrack) return` fires, otherwise
`min((progress / (duration || 1)) * 100, 100)` as an exact rational. -/
def updateProgressDisplay (w : WidgetState) (now : Int) : Option ℚ :=
  match w.currentTrack with
  | none => none
  | some t =>
      let duration : Int := jsOrInt t.duration 1
      let progress : Int := getCurrentProgress w now
      some (min ((progress : ℚ) / (duration : ℚ) * 100) 100)

/-! ## Windows media provider (`src/server/providers/windows-media.js`) -/

/-- One adapter interaction of `WindowsMediaProvider.getCurrentTrack`, from
the point of view of the `try` block: either the `execAsync` promise rejects
(spawn failure or the 5000 ms timeout), or it resolves with stdout/stderr and
the stdout is then parsed.  `parsedSnap` is the case where `JSON.parse`
yields a well-formed snapshot object; `parsedNull` is a parse that yields
JSON `null` (reading `.playing` on it then throws a `TypeError`);
`parseThrow` is unparseable stdout; `stderrOnly` is the
`if (stderr && !stdout)` branch. -/
inductive WinResp where
  | execThrow (msg : String)
  | stderrOnly
  | parseThrow (msg : String)
  | parsedNull
  | parsedSnap (s : Snapshot)
deriving Repr, DecidableEq

/-- Is this adapter interaction one of the internal-failure cases
(everything except a successfully parsed snapshot object)? -/
def WinResp.isFailure : WinResp → Bool
  | .parsedSnap _ => false
  | _ => true

/-- The `catch` block of `WindowsMediaProvider.getCurrentTrack`
(`windows-media.js` lines 107–121): on a non-Windows platform it substitutes
the fixed message, otherwise it reports `error.message`. -/
def winCatch (isWin32 : Bool) (msg : String) : Snapshot :=
  if isWin32 then { playing := false, error := some msg }
  else
    { playing := false,
      error := some "Windows Media Session is only available on Windows" }

/-- Embedding of `WindowsMediaProvider.getCurrentTrack` (`windows-media.js` lines 12–122)
as a function of the platform flag and the adapter interaction.  The local
`this.lastTrack` / `this.playbackStartTime` bookkeeping (lines 95–104) never
affects the returned value and is omitted.  The function is total: every
branch returns a `Snapshot`, which is the embedding of "never throws past
its boundary". -/
def windowsGetCurrentTrack (isWin32 : Bool) (resp : WinResp) : Snapshot :=
  match resp with
  | .execThrow msg => winCatch isWin32 msg
  | .stderrOnly => { playing := false, error := some "PowerShell error" }
  | .parseThrow msg => winCatch isWin32 msg
  | .parsedNull =>
      winCatch isWin32 "Cannot read properties of null (reading 'playing')"
  | .parsedSnap s => s

/-! ## Spotify provider (`src/unnamed/part_000`) -/

/-- Token-lifecycle state of `SpotifyProvider` (constructor lines 4–12). -/
structure SpotifyState where
  clientId : String
  clientSecret : String
  accessToken : Option String
  refreshToken : Option String
  tokenExpiry : Option Int
deriving Repr, DecidableEq

/-- Embedding of `SpotifyProvider.hasCredentials` (lines 14–16): truthiness of both
credential strings (the empty string is the JS-falsy default). -/
def hasCredentials (st : SpotifyState) : Bool :=
  st.clientId != "" && st.clientSecret != ""

/-- One HTTP response of `https://accounts.spotify.com/api/token` during a
refresh: either `response.ok` with the parsed token payload, or a non-ok
response (`refreshAccessToken` then throws `Token refresh failed`). -/
inductive TokenResp where
  | ok (accessToken : String) (expiresIn : Int) (refreshToken : Option String)
  | httpFail
deriving Repr, DecidableEq

/-- The parsed `data.item` of a currently-playing response. -/
structure SpotifyItem where
  name : String
  artistNames : List String
  albumName : Option String
  albumImages : List (Int × String)
  durationMs : Int
deriving Repr, DecidableEq

/-- One HTTP interaction with
`https://api.spotify.com/v1/me/player/currently-playing`:
204, an ok body with or without `item`, a non-ok status, or a rejected
fetch / unparseable body (both throw inside the `try` and are caught). -/
inductive PlayerResp where
  | noContent
  | okNoItem
  | okItem (item : SpotifyItem) (progressMs : Option Int) (isPlaying : Bool)
  | httpError (status : Int)
  | netError (msg : String)
deriving Repr, DecidableEq

/-- Album-art selection (`part_000` lines 160–162):
`find(width === 300)?.url || images[0]?.url || null`, with JS `||`
falling through on an empty (falsy) URL string. -/
def spotifyAlbumArt (images : List (Int × String)) : Option String :=
  match (images.find? (fun p => p.1 == 300)).map (fun p => p.2) with
  | some u => if u = "" then images.head?.map (fun p => p.2) else some u
  | none => images.head?.map (fun p => p.2)

/-- Embedding of `SpotifyProvider.refreshAccessToken` (`part_000` lines 66–96), consuming
at most one token-endpoint response from the stream `tr` at index `ti`.
`Except.error` is a thrown exception; note the throw paths leave the
provider state unchanged.  `now` is `Date.now()`. -/
def refreshAccessToken (st : SpotifyState) (now : Int)
    (tr : Nat → TokenResp) (ti : Nat) :
    Except String SpotifyState × Nat :=
  match st.refreshToken with
  | none => (.error "No refresh token available", ti)
  | some _ =>
      match tr ti with
      | .httpFail => (.error "Token refresh failed", ti + 1)
      | .ok tok expiresIn newRefresh =>
          (.ok { st with
                  accessToken := some tok,
                  tokenExpiry := some (now + expiresIn * 1000),
                  refreshToken :=
                    match newRefresh with
                    | some r => if r = "" then st.refreshToken else some r
                    | none => st.refreshToken },
           ti + 1)

/-- Embedding of `SpotifyProvider.ensureToken` (`part_000` lines 98–114).  Returns the
boolean result, the updated state, and the next token-stream index.  The
expiry check is the JS truthiness test
`this.tokenExpiry && Date.now() > this.tokenExpiry - 300000`
(a `null` or `0` expiry is falsy). -/
def ensureToken (st : SpotifyState) (now : Int)
    (tr : Nat → TokenResp) (ti : Nat) : Bool × SpotifyState × Nat :=
  match st.accessToken with
  | none => (false, st, ti)
  | some _ =>
      let expiring : Bool :=
        match st.tokenExpiry with
        | some e => e != 0 && decide (now > e - 300000)
        | none => false
      if expiring then
        match refreshAccessToken st now tr ti with
        | (.ok st', ti') => (true, st', ti')
        | (.error _, ti') => (false, st, ti')
      else (true, st, ti)

/-- Embedding of `SpotifyProvider.getCurrentTrack` (`part_000` lines 116–181), fuel-indexed
because the code is recursive: a 401 from the player endpoint triggers
`await this.refreshAccessToken(); return this.getCurrentTrack();`.
`tr`/`pr` with indices `ti`/`pi` are the streams of token-endpoint and
player-endpoint responses; `none` means the fuel was exhausted before the
call returned (i.e. the JS recursion ran at least `fuel` levels deep).
A returned value carries the snapshot, the final provider state, and the
next stream indices. -/
def spotifyGetCurrentTrack (fuel : Nat) (st : SpotifyState) (now : Int)
    (tr : Nat → TokenResp) (pr : Nat → PlayerResp) (ti pi : Nat) :
    Option (Snapshot × SpotifyState × Nat × Nat) :=
  match fuel with
  | 0 => none
  | fuel + 1 =>
      if !hasCredentials st then
        some ({ playing := false,
                error := some "Spotify credentials not configured" },
              st, ti, pi)
      else
        match ensureToken st now tr ti with
        | (false, st1, ti1) =>
            some ({ playing := false, needsAuth := true }, st1, ti1, pi)
        | (true, st1, ti1) =>
            match pr pi with
            | .netError msg =>
                some ({ playing := false, error := some msg }, st1, ti1, pi + 1)
            | .noContent =>
                some ({ playing := false }, st1, ti1, pi + 1)
            | .okNoItem =>
                some ({ playing := false }, st1, ti1, pi + 1)
            | .httpError status =>
                if status = 401 then
                  match refreshAccessToken st1 now tr ti1 with
                  | (.ok st2, ti2) =>
                      spotifyGetCurrentTrack fuel st2 now tr pr ti2 (pi + 1)
                  | (.error msg, ti2) =>
                      some ({ playing := false, error := some msg },
                            st1, ti2, pi + 1)
                else
                  some ({ playing := false,
                          error :=
                            some ("Spotify API error: " ++ toString status) },
                        st1, ti1, pi + 1)
            | .okItem item progressMs isPlaying =>
                some ({ playing := isPlaying,
                        title := some item.name,
                        artist :=
                          some (String.intercalate ", " item.artistNames),
                        album := item.albumName,
                        albumArt := spotifyAlbumArt item.albumImages,
                        duration := some item.durationMs,
                        progress := progressMs,
                        source := some "spotify" },
                      st1, ti1, pi + 1)

/-! ## Specification-side definitions and concrete instances -/

/-- Comparison state as the specification describes it (spec §3, §4.2):
`lastTrackKey` is the derived `(title, artist)` key, compared per component
by exact string match. -/
structure SpecCompState where
  lastTrackKey : Option (Option String × Option String)
  lastPlaying : Option Bool
  lastProgressMs : Option Int
deriving Repr, DecidableEq

/-- Modelled from the spec's words (§4.2 and the C1 sentence), for comparison
with the code embedding `pollCurrentTrack`: significance computed with the
derived `(title, artist)` pair as the track key, `playStateChanged` iff
`lastPlaying` is non-null and differs, `userSeeked` evaluated only when the
track is unchanged and `lastProgressMs` is non-null, with expected progress
`lastProgressMs + (poll period 1000 ms + tolerance 500 ms)` while playing and
seek threshold 2500 ms. -/
def specSignificant (st : SpecCompState) (s : Snapshot) : Bool :=
  let key : Option String × Option String := (s.title, s.artist)
  let isNewTrack : Bool := some key != st.lastTrackKey
  let playStateChanged : Bool :=
    st.lastPlaying != none && st.lastPlaying != some s.playing
  let userSeeked : Bool :=
    match st.lastProgressMs with
    | some p =>
        if isNewTrack then false
        else
          let expected :=
            if st.lastPlaying == some true then p + (1000 + 500) else p
          decide ((jsOrInt s.progress 0 - expected).natAbs > 2500)
    | none => false
  isNewTrack || playStateChanged || userSeeked || st.lastTrackKey == none

/-- The significance classifier of `pollCurrentTrack` as a standalone function
of the comparison state, with the track key the code actually uses: the
single concatenated string `title + "-" + artist`, absent fields rendered
as `"undefined"`. -/
def significanceClassifier (lastTrackId : Option String)
    (lastPlaying : Option Bool) (lastProgress : Option Int)
    (s : Snapshot) : Bool :=
  let trackId : Option String :=
    some (jsFieldString s.title ++ "-" ++ jsFieldString s.artist)
  let isNewTrack : Bool := trackId != lastTrackId
  let playStateChanged : Bool :=
    lastPlaying != none && lastPlaying != some s.playing
  let userSeeked : Bool :=
    match lastProgress with
    | some p =>
        if isNewTrack then false
        else
          let expected :=
            if lastPlaying == some true then p + (1000 + 500) else p
          decide ((jsOrInt s.progress 0 - expected).natAbs > 2500)
    | none => false
  isNewTrack || playStateChanged || userSeeked || lastTrackId == none

/-- An idle/errored adapter snapshot as the providers produce it on failure:
no title, no artist, not playing, no progress (e.g.
`{ playing: false, error: 'PowerShell error' }`). -/
def isErrorSnapshot (s : Snapshot) : Bool :=
  s.title == none && s.artist == none && !s.playing && s.progress == none

/-- A playing track used as the state preceding the idle transition and as
the first broadcast of the C4 run. -/
def playingSample : Snapshot :=
  { playing := true, title := some "A", artist := some "X",
    progress := some 1000, duration := some 200000 }

/-- The same track as `playingSample` one second later: progress advanced by
1000 ms, which is within the seek tolerance, so this poll is not significant. -/
def playingSampleLater : Snapshot :=
  { playing := true, title := some "A", artist := some "X",
    progress := some 2000, duration := some 200000 }

/-- The Windows provider's error snapshot. -/
def errorSample : Snapshot :=
  { playing := false, error := some "PowerShell error" }

/-- Server state after the very first poll returned `playingSample`. -/
def afterPlaying : PollState :=
  (pollCurrentTrack initState (some playingSample)).1

/-- Server state after `playingSample` was polled and then
`playingSampleLater` (the second poll is not significant). -/
def afterPlayingLater : PollState :=
  (pollCurrentTrack afterPlaying (some playingSampleLater)).1

/-- First snapshot of the C1 key-collision run: title `"a-b"`, artist `"c"`. -/
def collidePrev : Snapshot :=
  { playing := true, title := some "a-b", artist := some "c",
    progress := some 1000, duration := some 200000 }

/-- Second snapshot of the C1 key-collision run: title `"a"`, artist `"b-c"`
— a different `(title, artist)` pair whose concatenated string key
`"a-b-c"` coincides with `collidePrev`'s, with progress exactly at the
expected value `1000 + 1500`. -/
def collideNext : Snapshot :=
  { playing := true, title := some "a", artist := some "b-c",
    progress := some 2500, duration := some 200000 }

/-- The spec-side comparison state after observing `collidePrev` (spec §4.2
step 6: key/playing/progress of the last snapshot). -/
def collideSpecState : SpecCompState :=
  ⟨some (some "a-b", some "c"), some true, some 1000⟩

/-- The comparison state of the C5 scenario: prior track `T` by `A`,
playing, progress 10000 ms. -/
def c5State : PollState := ⟨some "T-A", some true, some 10000, none⟩

/-- C5 snapshot whose progress jumped to 20000 ms (drift 8500 > 2500). -/
def c5SeekSnap : Snapshot :=
  { playing := true, title := some "T", artist := some "A",
    progress := some 20000 }

/-- C5 snapshot whose progress is 11200 ms (drift 300 ≤ 2500). -/
def c5NoSeekSnap : Snapshot :=
  { playing := true, title := some "T", artist := some "A",
    progress := some 11200 }

/-- A track with unknown duration (`duration` absent), playing. -/
def unknownDurationTrack : Snapshot :=
  { playing := true, title := some "T", artist := some "A" }

/-- Widget state synced at wall clock 1000 with progress 5000 ms on a track
of unknown duration, playing. -/
def c3Widget : WidgetState := ⟨some unknownDurationTrack, true, 5000, 1000⟩

/-- A track whose reported duration is literally 0. -/
def zeroDurationTrack : Snapshot :=
  { playing := true, title := some "Z", artist := some "A",
    duration := some 0 }

/-- Widget state on a zero-duration track: baseline progress 5000 ms synced
at wall clock 100, playing. -/
def c10Widget : WidgetState := ⟨some zeroDurationTrack, true, 5000, 100⟩

/-- Widget state on a known 200000 ms track, playing, baseline progress 0
synced at wall clock 1000. -/
def c8Widget : WidgetState := ⟨some playingSample, true, 0, 1000⟩

/-- Spotify provider state for the C7 counterexample: credentials and tokens
present, with the token already inside the 5-minute refresh window at
`now = 0` (`tokenExpiry = 100000`, and `0 > 100000 − 300000`). -/
def c7State : SpotifyState :=
  ⟨"id", "secret", some "tok", some "refresh", some 100000⟩

/-- Token endpoint that fails every refresh with a non-ok response. -/
def alwaysFailToken : Nat → TokenResp := fun _ => TokenResp.httpFail

/-- Player endpoint that always answers 204 (unused in the C7 run, which
never reaches the player request). -/
def alwaysNoContent : Nat → PlayerResp := fun _ => PlayerResp.noContent

/-- Spotify provider state with credentials and tokens present and the
expiry far in the future at `now = 0`, so `ensureToken` succeeds without
refreshing (used by the C7 witness). -/
def c7OkState : SpotifyState :=
  ⟨"id", "secret", some "tok", some "refresh", some 1000000000⟩

/-- Player endpoint whose fetch always rejects (network error). -/
def alwaysNetError : Nat → PlayerResp :=
  fun _ => PlayerResp.netError "fetch failed"

/-- Spotify provider state for the C9 scenario: credentials and tokens
present, expiry far in the future at `now = 0`. -/
def c9State : SpotifyState :=
  ⟨"id", "secret", some "tok", some "refresh", some 1000000000⟩

/-- Token endpoint whose refresh always succeeds, returning a token valid
for 3600 s and no new refresh token. -/
def alwaysOkToken : Nat → TokenResp := fun _ => TokenResp.ok "tok2" 3600 none

/-- Player endpoint that answers 401 to every request. -/
def always401 : Nat → PlayerResp := fun _ => PlayerResp.httpError 401

/-- The state the C9 loop settles into after the first successful refresh:
access token `"tok2"`, expiry `0 + 3600·1000`, refresh token kept. -/
def c9LoopState : SpotifyState :=
  ⟨"id", "secret", some "tok2", some "refresh", some 3600000⟩

/-! ## Theorems -/

/-- While the track is known, a sync happened, and the state is playing,
`getCurrentProgress` is the clamped extrapolation
`min(progressAtSync + elapsed, duration || 0)`. -/
theorem getCurrentProgress_playing (w : WidgetState) (t : Snapshot)
    (now : Int) (hT : w.currentTrack = some t) (hS : w.syncedAtTime ≠ 0)
    (hP : w.isPlaying = true) :
    getCurrentProgress w now =
      min (w.syncedProgressMs + (now - w.syncedAtTime))
        (jsOrInt t.duration 0) := by
  simp [getCurrentProgress, hT, hS, hP]

/-- C1 (counterexample).  The claim's classifier — significance from the
derived `(title, artist)` key per spec §3's exact per-component string match
— disagrees with the code: after observing title `"a-b"` / artist `"c"`,
a snapshot with title `"a"` / artist `"b-c"` is a new `(title, artist)` pair
(so the claim marks it significant), but the code's concatenated string key
`"a-b-c"` is unchanged and, with progress exactly at the expected value,
`pollCurrentTrack` does not mark it significant. -/
theorem c1_counterexample :
    specSignificant collideSpecState collideNext = true ∧
    (pollCurrentTrack (pollCurrentTrack initState (some collidePrev)).1
      (some collideNext)).2 = false := by
  decide

/-- C1 (amended).  For every snapshot returned by the adapter and every
comparison state, `pollCurrentTrack` marks the snapshot significant exactly
when `isNewTrack || playStateChanged || userSeeked || lastTrackKey == null`,
where the track key is the single concatenated string
`title + "-" + artist` with absent fields rendered `"undefined"` (so
distinct `(title, artist)` pairs may collide), `playStateChanged` holds iff
`lastPlaying` is non-null and differs from the snapshot's playing flag, and
`userSeeked` is evaluated only when the key is unchanged and
`lastProgressMs` is non-null; in particular the very first snapshot after
initialization is always significant and broadcast. -/
theorem c1_significance_classifier :
    (∀ (st : PollState) (s : Snapshot),
      (pollCurrentTrack st (some s)).2 =
        significanceClassifier st.lastTrackId st.lastPlayingState
          st.lastProgressMs s) ∧
    (∀ s : Snapshot, (pollCurrentTrack initState (some s)).2 = true) ∧
    (∀ s : Snapshot, pollBroadcast initState (some s) = some (some s)) := by
  refine ⟨fun st s => ?_, fun s => ?_, fun s => ?_⟩
  · obtain ⟨lastId, lastPlaying, lastProgress, current⟩ := st
    cases lastProgress <;> rfl
  · rfl
  · rfl

/-- C4 (counterexample).  A run refuting "the greet payload equals the last
broadcast snapshot": the first poll broadcasts `playingSample`; the second
poll (`playingSampleLater`, same track, progress within tolerance) does not
broadcast but still overwrites `currentTrack`; an observer connecting now is
greeted with `playingSampleLater`, not with the last broadcast snapshot
`playingSample`. -/
theorem c4_counterexample :
    pollBroadcast initState (some playingSample) = some (some playingSample) ∧
    (pollCurrentTrack afterPlaying (some playingSampleLater)).2 = false ∧
    onConnectGreet afterPlayingLater = some playingSampleLater ∧
    playingSampleLater ≠ playingSample := by
  decide

/-- C4 (amended).  Every observer that connects after at least one poll has
completed immediately receives a track message, and its payload equals the
most recently polled snapshot (the server's `currentTrack`), which may
postdate the last broadcast snapshot when non-significant polls followed
the broadcast. -/
theorem c4_greet_last_polled :
    ∀ (st : PollState) (s : Snapshot),
      onConnectGreet (pollCurrentTrack st (some s)).1 = some s := by
  intro st s
  rfl

/-- C5.  With prior comparison state `{track = T-A, playing = true,
progress = 10000}` and the code's constants (poll interval 1000 ms +
tolerance 500 ms, seek threshold 2500 ms), a same-track snapshot at progress
20000 ms is significant (detected seek, drift 8500 > 2500) and a same-track
snapshot at progress 11200 ms is not (drift 300). -/
theorem c5_seek_boundary :
    (pollCurrentTrack c5State (some c5SeekSnap)).2 = true ∧
    (pollCurrentTrack c5State (some c5NoSeekSnap)).2 = false := by
  decide

/-- C6.  After every execution of a poll step — significant or not,
broadcast or not — the comparison state and the current-known snapshot equal
the values derived from the snapshot just polled: the concatenated track
key, its playing flag, its progress, and the snapshot itself. -/
theorem c6_state_unconditionally_updated :
    ∀ (st : PollState) (track : Option Snapshot),
      (pollCurrentTrack st track).1 =
        ⟨trackIdOf track, track.map (fun t => t.playing),
          track.bind (fun t => t.progress), track⟩ := by
  intro st track
  rfl

/-- Auxiliary invariant for C2: once the server's comparison state records
the idle key `"undefined-undefined"`, playing `false` and no progress, a run
of error snapshots never broadcasts and preserves that shape. -/
theorem pollRun_idle_replicate :
    ∀ (es : List Snapshot) (st : PollState),
      st.lastTrackId = some "undefined-undefined" →
      st.lastPlayingState = some false →
      st.lastProgressMs = none →
      (∀ e ∈ es, isErrorSnapshot e = true) →
      (pollRun st (es.map some)).2 = List.replicate es.length false := by
  intro es
  induction es with
  | nil => intro st _ _ _ _; rfl
  | cons e rest ih =>
    intro st hId hPlay hProg hAll
    have he := hAll e (List.mem_cons_self e rest)
    simp only [isErrorSnapshot, Bool.and_eq_true, beq_iff_eq,
      Bool.not_eq_true'] at he
    obtain ⟨⟨⟨hTitle, hArtist⟩, hPlayingE⟩, hProgE⟩ := he
    have hrest : ∀ x ∈ rest, isErrorSnapshot x = true :=
      fun x hx => hAll x (List.mem_cons_of_mem e hx)
    have hkey : trackIdOf (some e) = some "undefined-undefined" := by
      simp [trackIdOf, jsFieldString, hTitle, hArtist]
    have hstep : pollCurrentTrack st (some e) =
        (⟨some "undefined-undefined", some false, none, some e⟩, false) := by
      simp [pollCurrentTrack, hkey, hId, hPlay, hProg, hPlayingE, hProgE]
    show (pollCurrentTrack st (some e)).2 ::
        (pollRun (pollCurrentTrack st (some e)).1 (rest.map some)).2 =
        List.replicate (rest.length + 1) false
    rw [hstep]
    simp only [List.replicate_succ]
    exact congrArg (false :: ·)
      (ih ⟨some "undefined-undefined", some false, none, some e⟩
        rfl rfl rfl hrest)

/-- C2.  If, after previously reporting a playing track
(`lastPlayingState = some true`), the adapter returns error snapshots
(no title) on every subsequent poll, the server broadcasts exactly once —
on the transition into the idle/errored state — and never again while the
idle state persists: the broadcast flags of the run are
`true :: false :: … :: false`. -/
theorem c2_idle_broadcast_once :
    ∀ (st : PollState) (es : List Snapshot),
      st.lastPlayingState = some true →
      (∀ e ∈ es, isErrorSnapshot e = true) →
      (pollRun st (es.map some)).2 =
        if es.isEmpty then []
        else true :: List.replicate (es.length - 1) false := by
  intro st es hPlay hAll
  cases es with
  | nil => rfl
  | cons e rest =>
    have he := hAll e (List.mem_cons_self e rest)
    simp only [isErrorSnapshot, Bool.and_eq_true, beq_iff_eq,
      Bool.not_eq_true'] at he
    obtain ⟨⟨⟨hTitle, hArtist⟩, hPlayingE⟩, hProgE⟩ := he
    have hrest : ∀ x ∈ rest, isErrorSnapshot x = true :=
      fun x hx => hAll x (List.mem_cons_of_mem e hx)
    have hkey : trackIdOf (some e) = some "undefined-undefined" := by
      simp [trackIdOf, jsFieldString, hTitle, hArtist]
    have hsig : (pollCurrentTrack st (some e)).2 = true := by
      simp [pollCurrentTrack, hPlay, hPlayingE]
    have hstate : (pollCurrentTrack st (some e)).1 =
        ⟨some "undefined-undefined", some false, none, some e⟩ := by
      simp [pollCurrentTrack, hkey, hPlayingE, hProgE]
    show (pollCurrentTrack st (some e)).2 ::
        (pollRun (pollCurrentTrack st (some e)).1 (rest.map some)).2 = _
    rw [hsig, hstate,
      pollRun_idle_replicate rest _ rfl rfl rfl hrest]
    rfl

/-- C2 (witness): after polling a playing track, three consecutive
PowerShell-error polls broadcast exactly once, on the first of them. -/
theorem c2_witness :
    (pollRun afterPlaying
      [some errorSample, some errorSample, some errorSample]).2 =
      [true, false, false] := by
  have h := c2_idle_broadcast_once afterPlaying
    [errorSample, errorSample, errorSample] (by decide) (by decide)
  simpa using h

/-- C3 (counterexample).  With a playing baseline `(progressAtSync = 5000,
syncedAtWallClock = 1000)` on a track of unknown duration, the displayed
position at `now = 2000` is `0` — `Math.min(5000 + 1000, duration || 0)`
clamps to `0` — and not the unclamped `progressAtSync + elapsed = 6000`
the claim asserts. -/
theorem c3_counterexample :
    getCurrentProgress c3Widget 2000 = 0 ∧
    c3Widget.syncedProgressMs + (2000 - c3Widget.syncedAtTime) = 6000 ∧
    (0 : Int) ≠ 6000 := by
  decide

/-- C3 (amended).  On each render tick the observer computes
`displayed = playing ? min(progressAtSync + (now − syncedAtWallClock),
duration || 0) : progressAtSync`.  When the duration is known, nonzero and
positive this keeps the displayed position in `[0, duration]` (given a
nonnegative baseline and a clock at or past the sync); when the duration is
unknown (0 or absent) and the track is playing, `duration || 0` makes the
minimum clamp the displayed position to `0` — it does *not* free-run
unclamped above. -/
theorem c3_displayed_position :
    (∀ (w : WidgetState) (t : Snapshot) (now : Int),
      w.currentTrack = some t → w.syncedAtTime ≠ 0 → w.isPlaying = true →
      getCurrentProgress w now =
        min (w.syncedProgressMs + (now - w.syncedAtTime))
          (jsOrInt t.duration 0)) ∧
    (∀ (w : WidgetState) (t : Snapshot) (now : Int),
      w.currentTrack = some t → w.syncedAtTime ≠ 0 → w.isPlaying = true →
      jsOrInt t.duration 0 = 0 →
      0 ≤ w.syncedProgressMs + (now - w.syncedAtTime) →
      getCurrentProgress w now = 0) ∧
    (∀ (w : WidgetState) (t : Snapshot) (now : Int),
      w.currentTrack = some t → w.syncedAtTime ≠ 0 → w.isPlaying = false →
      getCurrentProgress w now = w.syncedProgressMs) ∧
    (∀ (w : WidgetState) (t : Snapshot) (now d : Int),
      w.currentTrack = some t → w.syncedAtTime ≠ 0 → w.isPlaying = true →
      t.duration = some d → 0 < d →
      0 ≤ w.syncedProgressMs → w.syncedAtTime ≤ now →
      0 ≤ getCurrentProgress w now ∧ getCurrentProgress w now ≤ d) := by
  refine ⟨?_, ?_, ?_, ?_⟩
  · intro w t now hTrack hSync hPlaying
    simp [getCurrentProgress, hTrack, hSync, hPlaying]
  · intro w t now hTrack hSync hPlaying hDur hNonneg
    simp [getCurrentProgress, hTrack, hSync, hPlaying, hDur]
    omega
  · intro w t now hTrack hSync hPlaying
    simp [getCurrentProgress, hTrack, hSync, hPlaying]
  · intro w t now d hTrack hSync hPlaying hDur hd hBase hClock
    have hne : d ≠ 0 := by omega
    simp [getCurrentProgress, hTrack, hSync, hPlaying, hDur, jsOrInt, hne]
    omega

/-- C3 (witness): the zero-clamp conjunct evaluated on the concrete
unknown-duration widget state. -/
theorem c3_witness : getCurrentProgress c3Widget 2000 = 0 :=
  c3_displayed_position.2.1 c3Widget unknownDurationTrack 2000 rfl
    (by decide) rfl (by decide) (by decide)

/-- C7 (counterexample).  An HTTP failure of the token-refresh request —
an internal failure of the Spotify provider — makes `getCurrentTrack`
return `{ playing: false, needsAuth: true }`: `playing` is `false`, but the
`error` field is *not* set, refuting "on any internal failure it returns a
snapshot with playing=false and the error field set".  (`c7State` has
credentials and tokens, with the expiry inside the 5-minute refresh window,
so `ensureToken` attempts the refresh, catches the throw, and returns
`false`.) -/
theorem c7_counterexample :
    spotifyGetCurrentTrack 1 c7State 0 alwaysFailToken alwaysNoContent 0 0 =
      some ({ playing := false, needsAuth := true }, c7State, 1, 0) ∧
    ({ playing := false, needsAuth := true } : Snapshot).error = none := by
  constructor
  · rfl
  · rfl

/-- C7 (amended).  Both providers are total — every adapter response yields
a returned `Snapshot`, never an escaped exception — and every internal
failure returns `playing = false`, with `error` set except for the
`ensureToken` authentication path.  Forward, per failure path:
every failing Windows adapter interaction returns `playing = false` with
`error` set; and for the Spotify provider, missing credentials, a failing
`ensureToken` (absent token or failed pre-emptive refresh), a rejected
player fetch, a non-401 HTTP error, and a 401 whose refresh throws each
return exactly their failure snapshot — `playing = false` and `error` set,
except the `ensureToken` path which returns
`{ playing: false, needsAuth: true }` with no `error` — while a 401 whose
refresh succeeds merely recurses. -/
theorem c7_provider_failure_snapshots :
    (∀ (isWin32 : Bool) (resp : WinResp), resp.isFailure = true →
      (windowsGetCurrentTrack isWin32 resp).playing = false ∧
      ((windowsGetCurrentTrack isWin32 resp).error).isSome = true) ∧
    (∀ (fuel : Nat) (st : SpotifyState) (now : Int)
        (tr : Nat → TokenResp) (pr : Nat → PlayerResp) (ti pi : Nat),
      (hasCredentials st = false →
        spotifyGetCurrentTrack (fuel + 1) st now tr pr ti pi =
          some ({ playing := false,
                  error := some "Spotify credentials not configured" },
                st, ti, pi)) ∧
      (∀ st1 ti1,
        hasCredentials st = true →
        ensureToken st now tr ti = (false, st1, ti1) →
        spotifyGetCurrentTrack (fuel + 1) st now tr pr ti pi =
          some ({ playing := false, needsAuth := true }, st1, ti1, pi)) ∧
      (∀ st1 ti1 msg,
        hasCredentials st = true →
        ensureToken st now tr ti = (true, st1, ti1) →
        pr pi = PlayerResp.netError msg →
        spotifyGetCurrentTrack (fuel + 1) st now tr pr ti pi =
          some ({ playing := false, error := some msg },
                st1, ti1, pi + 1)) ∧
      (∀ st1 ti1 status,
        hasCredentials st = true →
        ensureToken st now tr ti = (true, st1, ti1) →
        pr pi = PlayerResp.httpError status →
        status ≠ 401 →
        spotifyGetCurrentTrack (fuel + 1) st now tr pr ti pi =
          some ({ playing := false,
                  error := some ("Spotify API error: " ++ toString status) },
                st1, ti1, pi + 1)) ∧
      (∀ st1 ti1 msg ti2,
        hasCredentials st = true →
        ensureToken st now tr ti = (true, st1, ti1) →
        pr pi = PlayerResp.httpError 401 →
        refreshAccessToken st1 now tr ti1 = (Except.error msg, ti2) →
        spotifyGetCurrentTrack (fuel + 1) st now tr pr ti pi =
          some ({ playing := false, error := some msg },
                st1, ti2, pi + 1)) ∧
      (∀ st1 ti1 st2 ti2,
        hasCredentials st = true →
        ensureToken st now tr ti = (true, st1, ti1) →
        pr pi = PlayerResp.httpError 401 →
        refreshAccessToken st1 now tr ti1 = (Except.ok st2, ti2) →
        spotifyGetCurrentTrack (fuel + 1) st now tr pr ti pi =
          spotifyGetCurrentTrack fuel st2 now tr pr ti2 (pi + 1))) := by
  constructor
  · intro isWin32 resp hfail
    cases resp with
    | parsedSnap s => simp [WinResp.isFailure] at hfail
    | execThrow msg => cases isWin32 <;> simp [windowsGetCurrentTrack, winCatch]
    | stderrOnly => simp [windowsGetCurrentTrack]
    | parseThrow msg => cases isWin32 <;> simp [windowsGetCurrentTrack, winCatch]
    | parsedNull => cases isWin32 <;> simp [windowsGetCurrentTrack, winCatch]
  · intro fuel st now tr pr ti pi
    refine ⟨?_, ?_, ?_, ?_, ?_, ?_⟩
    · intro hcred
      simp [spotifyGetCurrentTrack, hcred]
    · intro st1 ti1 hcred hens
      simp [spotifyGetCurrentTrack, hcred, hens]
    · intro st1 ti1 msg hcred hens hpr
      simp [spotifyGetCurrentTrack, hcred, hens, hpr]
    · intro st1 ti1 status hcred hens hpr hne
      simp [spotifyGetCurrentTrack, hcred, hens, hpr, hne]
    · intro st1 ti1 msg ti2 hcred hens hpr href
      simp [spotifyGetCurrentTrack, hcred, hens, hpr, href]
    · intro st1 ti1 st2 ti2 hcred hens hpr href
      simp [spotifyGetCurrentTrack, hcred, hens, hpr, href]

/-- C7 (witness): two concrete failure paths discharged through the
theorem — the Windows provider on a rejected `execAsync` promise returns
`playing = false` with `error` set, and the Spotify provider on a rejected
player fetch returns `playing = false` with `error = "fetch failed"`. -/
theorem c7_witness :
    ((windowsGetCurrentTrack true (WinResp.execThrow "timeout")).playing =
        false ∧
      ((windowsGetCurrentTrack true
        (WinResp.execThrow "timeout")).error).isSome = true) ∧
    spotifyGetCurrentTrack 1 c7OkState 0 alwaysOkToken alwaysNetError 0 0 =
      some ({ playing := false, error := some "fetch failed" },
            c7OkState, 0, 1) := by
  constructor
  · exact c7_provider_failure_snapshots.1 true (WinResp.execThrow "timeout")
      rfl
  · exact (c7_provider_failure_snapshots.2 0 c7OkState 0 alwaysOkToken
      alwaysNetError 0 0).2.2.1 c7OkState 0 "fetch failed" rfl rfl rfl

/-- C8.  For every baseline with `playing = true`, the extrapolated
displayed position is monotone in the wall clock — `t1 ≤ t2` implies
`displayed(t1) ≤ displayed(t2)` — and (once a sync happened) it never
exceeds the track duration `duration || 0` it is clamped at. -/
theorem c8_extrapolation_monotone :
    (∀ (w : WidgetState) (t1 t2 : Int), w.isPlaying = true → t1 ≤ t2 →
      getCurrentProgress w t1 ≤ getCurrentProgress w t2) ∧
    (∀ (w : WidgetState) (t : Snapshot) (now : Int), w.isPlaying = true →
      w.currentTrack = some t → w.syncedAtTime ≠ 0 →
      getCurrentProgress w now ≤ jsOrInt t.duration 0) := by
  constructor
  · intro w t1 t2 hPlaying h12
    cases hT : w.currentTrack with
    | none => simp [getCurrentProgress, hT]
    | some t =>
      by_cases hS : w.syncedAtTime = 0
      · simp [getCurrentProgress, hT, hS]
      · rw [getCurrentProgress_playing w t t1 hT hS hPlaying,
          getCurrentProgress_playing w t t2 hT hS hPlaying]
        omega
  · intro w t now hPlaying hT hS
    rw [getCurrentProgress_playing w t now hT hS hPlaying]
    exact min_le_right _ _

/-- C8 (witness): monotonicity evaluated on a concrete playing baseline at
wall clocks 1500 and 2500. -/
theorem c8_witness :
    getCurrentProgress c8Widget 1500 ≤ getCurrentProgress c8Widget 2500 :=
  c8_extrapolation_monotone.1 c8Widget 1500 2500 rfl (by decide)

/-- Auxiliary for C9: once the loop state `c9LoopState` is reached, every
level of the 401-retry recursion reproduces it (the player endpoint keeps
answering 401 and every refresh succeeds with a far-future expiry), so the
call never returns no matter how much fuel it is given. -/
theorem spotify401LoopAux :
    ∀ (n ti pi : Nat),
      spotifyGetCurrentTrack n c9LoopState 0 alwaysOkToken always401 ti pi =
        none := by
  intro n
  induction n with
  | zero => intro ti pi; rfl
  | succ n ih =>
    intro ti pi
    exact ih (ti + 1) (pi + 1)

/-- C9.  `SpotifyProvider.getCurrentTrack` does *not* terminate for every
response sequence: starting from a state with credentials and valid tokens,
if the player endpoint answers 401 to every request while token refresh
keeps succeeding, the recursion `refreshAccessToken(); getCurrentTrack()`
recurs without bound — for every fuel `n` the fuel-indexed embedding
exhausts its fuel (`none`), i.e. the JS recursion exceeds any finite
depth. -/
theorem c9_unbounded_401_retry :
    ∀ n : Nat,
      spotifyGetCurrentTrack n c9State 0 alwaysOkToken always401 0 0 =
        none := by
  intro n
  cases n with
  | zero => rfl
  | succ n => exact spotify401LoopAux n 1 1

/-- C10.  The progress-bar update never divides by zero — the divisor
`duration || 1` is nonzero for every track — and, for a state whose
baseline is nonnegative, whose clock is at or past the sync, and whose
reported duration (if any) is nonnegative, the extrapolated progress is
never negative and the percentage written to the bar lies in `[0, 100]`. -/
theorem c10_progress_bar_safe :
    (∀ t : Snapshot, jsOrInt t.duration 1 ≠ 0) ∧
    (∀ (w : WidgetState) (t : Snapshot) (now : Int),
      w.currentTrack = some t →
      0 ≤ w.syncedProgressMs → w.syncedAtTime ≤ now →
      (∀ d : Int, t.duration = some d → 0 ≤ d) →
      0 ≤ getCurrentProgress w now ∧
      ∀ q : ℚ, updateProgressDisplay w now = some q →
        0 ≤ q ∧ q ≤ 100) := by
  constructor
  · intro t
    cases hD : t.duration with
    | none => simp [jsOrInt]
    | some d =>
      simp only [jsOrInt]
      split <;> omega
  · intro w t now hTrack hBase hClock hDurNN
    have hDur0 : 0 ≤ jsOrInt t.duration 0 := by
      cases hD : t.duration with
      | none => simp [jsOrInt]
      | some d =>
        have := hDurNN d hD
        simp only [jsOrInt]
        split <;> omega
    have hprog : 0 ≤ getCurrentProgress w now := by
      simp only [getCurrentProgress, hTrack]
      by_cases hS : w.syncedAtTime = 0
      · simp [hS]
      · cases hP : w.isPlaying
        · simpa [hS, hP] using hBase
        · simp [hS, hP]
          omega
    refine ⟨hprog, ?_⟩
    intro q hq
    have hdur1 : 0 < jsOrInt t.duration 1 := by
      cases hD : t.duration with
      | none => simp [jsOrInt]
      | some d =>
        have := hDurNN d hD
        simp only [jsOrInt]
        split <;> omega
    simp only [updateProgressDisplay, hTrack, Option.some.injEq] at hq
    subst hq
    constructor
    · refine le_min ?_ (by norm_num)
      refine mul_nonneg (div_nonneg ?_ ?_) (by norm_num)
      · exact_mod_cast hprog
      · exact_mod_cast le_of_lt hdur1
    · exact min_le_right _ _

/-- C10 (witness): on a concrete zero-duration track the extrapolated
progress is nonnegative and the percentage bounds hold (the computed
percentage is `0`). -/
theorem c10_witness :
    0 ≤ getCurrentProgress c10Widget 200 ∧ (0 : ℚ) ≤ 0 ∧ (0 : ℚ) ≤ 100 := by
  have h := c10_progress_bar_safe.2 c10Widget zeroDurationTrack 200 rfl
    (by decide) (by decide)
    (fun d hd => by simp [zeroDurationTrack] at hd; omega)
  have hq : updateProgressDisplay c10Widget 200 = some 0 := by
    simp [updateProgressDisplay, getCurrentProgress, c10Widget,
      zeroDurationTrack, jsOrInt]
  exact ⟨h.1, h.2 0 hq⟩

end MusicWidget
